import Mathlib

/-!
Verification development for the satellite-telemetry analysis pipeline
(`src/core/data_loader.py`, `src/core/data_checker.py`,
`src/core/data_analysis.py`, `src/core/data_report.py`).

Modelling conventions:
* Timestamps are modelled as `Option Int` — milliseconds since an epoch;
  `none` models a missing / unparseable timestamp (pandas `NaT`).
* Numeric cell values are modelled as `Option ℚ`; `none` models a missing
  value (pandas `NaN`).  Every float comparison against `NaN` is false in
  the source, which the `nan`-prefixed comparison helpers reproduce.
* A pandas `DataFrame` is modelled column-oriented by `Frame`: the list of
  column names (`cols`), the timestamp column, and an association list of
  numeric columns.  `nrows` is the row count used by `iterrows`-style
  loops.
* Standard deviations are square roots and therefore live in `ℝ`
  (`Real.sqrt` of the rational variance); all other statistics stay in `ℚ`.
* Formatted message strings, skewness/kurtosis, Pearson-correlation
  sections and the per-cycle human-readable summary text are not referenced
  by any claim and are omitted from the embedded record types; a comment
  marks each omission at the corresponding definition.
-/

namespace FTTW

/-! ### Normalizer: duplicate-timestamp resolution (`DataLoader._validate_data`)

`_validate_data` (data_loader.py lines 205-217): rows whose timestamp value
occurs more than once in the column (`duplicated(keep=False)`) each receive
an offset of `row_index × 1 ms` (`pd.Timedelta(seconds=idx * 0.001)`), and
the table is then sorted ascending by timestamp.  The embedding works on
the timestamp column alone, in integer milliseconds.  (In the source the
column may still hold raw strings at this point; the embedding models the
parsed instants of the spec's data model, which is also the dtype of a
synthesized timestamp column.) -/

/-- Stable insertion of `a` into a list, used by the sort below. -/
def insSorted (le : α → α → Bool) (a : α) : List α → List α
  | [] => [a]
  | b :: t => if le a b then a :: b :: t else b :: insSorted le a t

/-- Ascending sort (insertion sort).  Models `DataFrame.sort_values`: the
claims depend only on the sortedness and multiset of the result, not on the
tie-breaking of pandas' default (unstable) quicksort. -/
def sortBy (le : α → α → Bool) (l : List α) : List α :=
  l.foldr (insSorted le) []

/-- Offsets every row of a duplicated-timestamp group by
`row_index` milliseconds, exactly as data_loader.py lines 210-213:
the duplicate mask is computed on the original column, and the offset uses
the absolute row index, not the rank inside the duplicate group. -/
def dupOffset (ts : List Int) : List Int :=
  ts.enum.map fun p =>
    if 2 ≤ ts.count p.2 then p.2 + (p.1 : Int) else p.2

/-- The timestamp part of `DataLoader._validate_data`: duplicate offsets,
then ascending sort (data_loader.py lines 205-217). -/
def validateTimestamps (ts : List Int) : List Int :=
  sortBy (fun a b => a ≤ b) (dupOffset ts)

/-! ### ThresholdEvaluator (`DataChecker`, data_checker.py) -/

/-- One alarm record, as assembled by the `DataChecker.check_*` methods:
`{timestamp, type, level, value, message}`.  The formatted Chinese
`message` string is omitted: no claim refers to it. -/
structure Alarm where
  timestamp : Option Int
  type : String
  level : String
  value : Option ℚ
  deriving Repr, DecidableEq

/-- Band thresholds for one of the categories `temperature` /
`battery_voltage`; `none` models a key the configuration omits
(`dict.get(key, default)` then supplies the documented default). -/
structure BandThresholds where
  alarm_max : Option ℚ
  alarm_min : Option ℚ
  warning_max : Option ℚ
  warning_min : Option ℚ
  deriving Repr, DecidableEq

/-- `min`/`max` bounds for one orbital element. -/
structure OrbitBounds where
  min : Option ℚ
  max : Option ℚ
  deriving Repr, DecidableEq

/-- The loaded threshold configuration.  For each category, `none` models a
key that is absent (or bound to an empty — hence falsy — mapping), which
the checker skips with a warning. -/
structure Thresholds where
  temperature : Option BandThresholds
  battery_voltage : Option BandThresholds
  orbit_parameters : Option (List (String × OrbitBounds))
  deriving Repr, DecidableEq

/-- `v > x` where `v` may be `NaN` (modelled `none`): false on `NaN`,
matching IEEE float comparison in the source. -/
def nanGt (v : Option ℚ) (x : ℚ) : Bool :=
  match v with
  | none => false
  | some a => x < a

/-- `v < x` where `v` may be `NaN` (modelled `none`). -/
def nanLt (v : Option ℚ) (x : ℚ) : Bool :=
  match v with
  | none => false
  | some a => a < x

/-- The per-row body of `DataChecker.check_temperature`
(data_checker.py lines 98-141): the four bands in strict `elif` priority,
each threshold defaulted when the configuration omits it. -/
def checkTempRow (c : BandThresholds) (ts : Option Int) (temp : Option ℚ) :
    List Alarm :=
  if nanGt temp (c.alarm_max.getD 40) then
    [⟨ts, "temperature", "alarm", temp⟩]
  else if nanLt temp (c.alarm_min.getD 15) then
    [⟨ts, "temperature", "alarm", temp⟩]
  else if nanGt temp (c.warning_max.getD 38) then
    [⟨ts, "temperature", "warning", temp⟩]
  else if nanLt temp (c.warning_min.getD 20) then
    [⟨ts, "temperature", "warning", temp⟩]
  else []

/-- The per-row body of `DataChecker.check_battery_voltage`
(data_checker.py lines 168-209); voltage defaults 8.4 / 7.0 / 8.2 / 7.3. -/
def checkVoltRow (c : BandThresholds) (ts : Option Int) (v : Option ℚ) :
    List Alarm :=
  if nanGt v (c.alarm_max.getD (42/5)) then
    [⟨ts, "battery_voltage", "alarm", v⟩]
  else if nanLt v (c.alarm_min.getD 7) then
    [⟨ts, "battery_voltage", "alarm", v⟩]
  else if nanGt v (c.warning_max.getD (41/5)) then
    [⟨ts, "battery_voltage", "warning", v⟩]
  else if nanLt v (c.warning_min.getD (73/10)) then
    [⟨ts, "battery_voltage", "warning", v⟩]
  else []

/-- The per-row, per-element body of `DataChecker.check_orbit_parameters`
(data_checker.py lines 238-264).  A `none` value models both a missing
column (`row.get(param) is None` → `continue`) and a `NaN` cell (both
comparisons false); either way the row contributes no alarm. -/
def checkOrbitCell (bounds : OrbitBounds) (param : String) (ts : Option Int)
    (v : Option ℚ) : List Alarm :=
  match bounds.min with
  | some lo =>
      if nanLt v lo then [⟨ts, "orbit_" ++ param, "alarm", v⟩]
      else
        match bounds.max with
        | some hi => if nanGt v hi then [⟨ts, "orbit_" ++ param, "alarm", v⟩] else []
        | none => []
  | none =>
      match bounds.max with
      | some hi => if nanGt v hi then [⟨ts, "orbit_" ++ param, "alarm", v⟩] else []
      | none => []

/-! ### The table model -/

/-- Column-oriented model of a pandas `DataFrame`. -/
structure Frame where
  nrows : Nat
  cols : List String
  timestamp : List (Option Int)
  num : List (String × List (Option ℚ))
  deriving Repr, DecidableEq

/-- The values of numeric column `c` (empty when absent). -/
def Frame.col (f : Frame) (c : String) : List (Option ℚ) :=
  (f.num.lookup c).getD []

/-- The cell of numeric column `c` in row `i`. -/
def Frame.cell (f : Frame) (c : String) (i : Nat) : Option ℚ :=
  ((f.col c).get? i).getD none

/-- The timestamp of row `i`. -/
def Frame.ts (f : Frame) (i : Nat) : Option Int :=
  (f.timestamp.get? i).getD none

/-- `df.empty` (no rows). -/
def Frame.isEmpty (f : Frame) : Bool := f.nrows == 0

/-- Non-missing values of a column, in row order (`Series.dropna`). -/
def validVals (col : List (Option ℚ)) : List ℚ :=
  col.filterMap id

/-- The six orbital-element column names. -/
def orbitParams : List String := ["a", "e", "i", "raan", "argp", "mean_anomaly"]

/-! ### Table-level threshold checks -/

/-- `DataChecker.check_temperature`: iterate the rows
(`df.iterrows()`), collecting at most one alarm per row.  A `none`
category models an absent / empty `temperature` section: checks skipped. -/
def check_temperature (cfg : Option BandThresholds) (f : Frame) : List Alarm :=
  match cfg with
  | none => []
  | some c => (List.range f.nrows).flatMap fun i =>
      checkTempRow c (f.ts i) (f.cell "temperature" i)

/-- `DataChecker.check_battery_voltage`, same shape. -/
def check_battery_voltage (cfg : Option BandThresholds) (f : Frame) :
    List Alarm :=
  match cfg with
  | none => []
  | some c => (List.range f.nrows).flatMap fun i =>
      checkVoltRow c (f.ts i) (f.cell "battery_voltage" i)

/-- `DataChecker.check_orbit_parameters`: rows outer, the six elements
inner; elements with no configured section get empty bounds and are
skipped. -/
def check_orbit_parameters (cfg : Option (List (String × OrbitBounds)))
    (f : Frame) : List Alarm :=
  match cfg with
  | none => []
  | some oc => (List.range f.nrows).flatMap fun i =>
      orbitParams.flatMap fun p =>
        checkOrbitCell ((oc.lookup p).getD ⟨none, none⟩) p (f.ts i) (f.cell p i)

/-- Sort key used by `alarms_df.sort_values('timestamp')`: missing
timestamps (`NaT`) are placed last, as pandas does. -/
def tsLe (a b : Option Int) : Bool :=
  match a, b with
  | some x, some y => x ≤ y
  | some _, none => true
  | none, some _ => false
  | none, none => true

/-- `DataChecker.check_all_thresholds` (data_checker.py lines 53-82):
temperature, voltage and orbit alarms concatenated, sorted ascending by
timestamp. -/
def check_all_thresholds (cfg : Thresholds) (f : Frame) : List Alarm :=
  sortBy (fun a b => tsLe a.timestamp b.timestamp)
    (check_temperature cfg.temperature f ++
      check_battery_voltage cfg.battery_voltage f ++
      check_orbit_parameters cfg.orbit_parameters f)

/-! ### ReportAggregator: cycle partitioning (`generate_cycle_report`) -/

/-- In `generate_cycle_report` and `create_summary_report`
(data_report.py lines 117 and 264), alarms are obtained via
`from core.data_checker import check_all_thresholds`.  `data_checker`
defines `check_all_thresholds` only as a *method* of `DataChecker`, never
at module level, so this import always raises `ImportError` and the
`except ImportError` branch runs.  The static outcome of that import is
recorded here: `none` = the name cannot be imported. -/
def importedCheckAllThresholds :
    Option (Thresholds → Frame → List Alarm) := none

/-- The rows `[start, stop)` of a frame (`df.iloc[start:stop]`). -/
def Frame.slice (f : Frame) (start stop : Nat) : Frame :=
  { nrows := min stop f.nrows - start
    cols := f.cols
    timestamp := (f.timestamp.drop start).take (stop - start)
    num := f.num.map fun p => (p.1, (p.2.drop start).take (stop - start)) }

/-- One per-cycle report (`generate_cycle_report`, data_report.py
lines 76-170).  The `timestamp_range`, `statistics`, `key_metrics`,
`temperature_trend`, `outlier_count` fields and the human-readable
`summary` text are omitted: no claim refers to them. -/
structure CycleReport where
  cycle_number : Nat
  total_records : Nat
  alarm_count : Nat
  alarms : List Alarm
  deriving Repr, DecidableEq

/-- The alarm section of one cycle report (data_report.py lines 115-123):
were the import to succeed the chunk's alarms would be counted and the
first five kept; since it raises `ImportError`, the except-branch records
zero alarms. -/
def cycleAlarmSection (cfg : Thresholds) (chunk : Frame) : Nat × List Alarm :=
  match importedCheckAllThresholds with
  | some f => let a := f cfg chunk; (a.length, a.take 5)
  | none => (0, [])

/-- `generate_cycle_report` (data_report.py lines 40-172), restricted to
the fields above.  The frame is assumed already sorted by timestamp (the
canonical-table invariant), making the function's initial
`sort_values('timestamp')` the identity.  `include_alarms` keeps the
source's flag; cycle `i` covers rows `[i*size, min((i+1)*size, n))`. -/
def generate_cycle_report (cfg : Thresholds) (f : Frame) (cycle_size : Nat)
    (include_alarms : Bool) : List CycleReport :=
  if f.isEmpty then []
  else
    let total_cycles := (f.nrows + cycle_size - 1) / cycle_size
    (List.range total_cycles).map fun cycle_num =>
      let start := cycle_num * cycle_size
      let stop := min ((cycle_num + 1) * cycle_size) f.nrows
      let chunk := f.slice start stop
      let alarmSec :=
        if include_alarms then cycleAlarmSection cfg chunk else (0, [])
      { cycle_number := cycle_num + 1
        total_records := chunk.nrows
        alarm_count := alarmSec.1
        alarms := alarmSec.2 }

/-! ### StatisticsEngine (`calculate_statistics`, data_analysis.py) -/

/-- Ascending sort of rational values. -/
def sortQ (xs : List ℚ) : List ℚ := sortBy (fun a b => a ≤ b) xs

/-- Linear-interpolation quantile, as `Series.quantile`: with sorted values
`s` (0-indexed) and position `h = (n-1)·q`, the result is
`s[⌊h⌋] + (h−⌊h⌋)·(s[⌊h⌋+1] − s[⌊h⌋])`.  The probability `q = qn/qd` is
passed as numerator and denominator (the source only ever uses 0.25, 0.5
and 0.75), so the floor is the natural division `(n−1)·qn / qd`.  Only
ever applied to non-empty data (pandas returns `NaN` on an empty
series). -/
def quantile (qn qd : Nat) (xs : List ℚ) : ℚ :=
  let s := sortQ xs
  let h : ℚ := ((s.length - 1 : ℕ) : ℚ) * ((qn : ℚ) / (qd : ℚ))
  let i := ((s.length - 1) * qn) / qd
  let a := s.getD i 0
  let b := s.getD (i + 1) a
  a + (h - (i : ℚ)) * (b - a)

/-- Minimum of a list of rationals (0 on empty; only applied to non-empty
data). -/
def listMinD (xs : List ℚ) : ℚ :=
  match xs with
  | [] => 0
  | h :: t => t.foldl min h

/-- Maximum of a list of rationals (0 on empty). -/
def listMaxD (xs : List ℚ) : ℚ :=
  match xs with
  | [] => 0
  | h :: t => t.foldl max h

/-- `np.mean` / `Series.mean` over the valid values. -/
def sampleMean (xs : List ℚ) : ℚ := xs.sum / (xs.length : ℚ)

/-- `Series.var` (`ddof=1`).  For a single sample pandas yields `NaN`
(0/0); the model yields `0` there — no claim touches that case. -/
def sampleVar (xs : List ℚ) : ℚ :=
  ((xs.map fun x => (x - sampleMean xs) ^ 2).sum) / ((xs.length - 1 : ℕ) : ℚ)

/-- `Series.std` (`ddof=1`) — the square root lives in `ℝ`. -/
noncomputable def sampleStd (xs : List ℚ) : ℝ := Real.sqrt (sampleVar xs)

/-- Per-column statistics of `calculate_statistics`
(data_analysis.py lines 36-51).  `skewness` and `kurtosis` are omitted:
no claim refers to them. -/
structure ColStats where
  count : Nat
  mean : ℚ
  std : ℝ
  min : ℚ
  q25 : ℚ
  median : ℚ
  q75 : ℚ
  max : ℚ
  range : ℚ
  variance : ℚ
  missing : Nat
  missing_percentage : ℚ

/-- Builds one column's statistics entry from the raw column and its valid
values. -/
noncomputable def mkColStats (nrows : Nat) (raw : List (Option ℚ))
    (data : List ℚ) : ColStats :=
  { count := data.length
    mean := sampleMean data
    std := sampleStd data
    min := listMinD data
    q25 := quantile 1 4 data
    median := quantile 1 2 data
    q75 := quantile 3 4 data
    max := listMaxD data
    range := listMaxD data - listMinD data
    variance := sampleVar data
    missing := raw.count none
    missing_percentage := ((raw.count none : ℚ) / (nrows : ℚ)) * 100 }

/-- `calculate_statistics` (data_analysis.py lines 16-84): one entry per
numeric column that has at least one valid value; empty for an empty
table.  The `time_intervals` and `correlations` sections are omitted:
no claim refers to them. -/
noncomputable def calculate_statistics (f : Frame) :
    List (String × ColStats) :=
  if f.isEmpty then []
  else
    f.num.filterMap fun p =>
      let data := validVals p.2
      if data.length > 0 then some (p.1, mkColStats f.nrows p.2 data)
      else none

/-! ### TrendFitter (`fit_temperature_trend`, data_analysis.py) -/

/-- Least-squares quadratic fit of `ys` against `x = 0, 1, …, n−1`
(`np.polyfit(x, y, 2)`), returned highest-degree-first `(c₂, c₁, c₀)`,
solved through the normal equations by Cramer's rule.  The fit is unique
whenever at least three distinct `x` values exist (determinant nonzero);
the `det = 0` branch (reachable only for `n ≤ 2`, where numpy's `lstsq`
would return a minimum-norm solution with a `RankWarning`) returns zeros —
no claim depends on that case.  Every caller in the repository uses the
default degree 2, which the embedding fixes. -/
def polyfit2 (ys : List ℚ) : ℚ × ℚ × ℚ :=
  let n := ys.length
  let xs : List ℚ := (List.range n).map fun i => (i : ℚ)
  let s0 : ℚ := (n : ℚ)
  let s1 := xs.sum
  let s2 := (xs.map (· ^ 2)).sum
  let s3 := (xs.map (· ^ 3)).sum
  let s4 := (xs.map (· ^ 4)).sum
  let t0 := ys.sum
  let t1 := ((xs.zip ys).map fun p => p.1 * p.2).sum
  let t2 := ((xs.zip ys).map fun p => p.1 ^ 2 * p.2).sum
  let det := s4 * (s2 * s0 - s1 * s1) - s3 * (s3 * s0 - s1 * s2) +
    s2 * (s3 * s1 - s2 * s2)
  if det = 0 then (0, 0, 0)
  else
    ((t2 * (s2 * s0 - s1 * s1) - s3 * (t1 * s0 - s1 * t0) +
        s2 * (t1 * s1 - s2 * t0)) / det,
      (s4 * (t1 * s0 - s1 * t0) - t2 * (s3 * s0 - s1 * s2) +
        s2 * (s3 * t0 - t1 * s2)) / det,
      (s4 * (s2 * t0 - t1 * s1) - s3 * (s3 * t0 - t1 * s2) +
        t2 * (s3 * s1 - s2 * s2)) / det)

/-- Evaluation of the fitted quadratic (`np.poly1d(coefficients)`). -/
def polyval2 (c : ℚ × ℚ × ℚ) (x : ℚ) : ℚ :=
  c.1 * x ^ 2 + c.2.1 * x + c.2.2

/-- The result record of `fit_temperature_trend`
(data_analysis.py lines 134-145).  `r_squared` is `none` when
`SStot = 0`, where the source's float division produces `NaN`. -/
structure TrendResult where
  coefficients : List ℚ
  r_squared : Option ℚ
  trend : String
  slope : ℚ
  mean_residual : ℚ
  max_residual : ℚ
  current_temperature : ℚ
  average_temperature : ℚ
  temperature_range : ℚ
  future_predictions : List ℚ
  deriving Repr, DecidableEq

/-- `fit_temperature_trend` (data_analysis.py lines 87-147) at the default
degree 2.  Returns `none` for the `{}` cases: empty table, no
`temperature` column, or fewer than 2 valid samples. -/
def fit_temperature_trend (f : Frame) : Option TrendResult :=
  if f.isEmpty || !(f.cols.contains "temperature") then none
  else
    let ys := validVals (f.col "temperature")
    if ys.length < 2 then none
    else
      let n := ys.length
      let c := polyfit2 ys
      let fitted := (List.range n).map fun i => polyval2 c (i : ℚ)
      let residuals := (ys.zip fitted).map fun p => p.1 - p.2
      let ssres := (residuals.map (· ^ 2)).sum
      let m := sampleMean ys
      let sstot := (ys.map fun y => (y - m) ^ 2).sum
      let slope := c.2.1
      some
        { coefficients := [c.1, c.2.1, c.2.2]
          r_squared := if sstot = 0 then none else some (1 - ssres / sstot)
          trend :=
            if slope > 1/100 then "上升"
            else if slope < -(1/100) then "下降"
            else "平稳"
          slope := slope
          mean_residual :=
            ((residuals.map fun r => |r|).sum) / (residuals.length : ℚ)
          max_residual := listMaxD (residuals.map fun r => |r|)
          current_temperature := ys.getLastD 0
          average_temperature := m
          temperature_range := listMaxD ys - listMinD ys
          future_predictions :=
            if n > 10 then (List.range 5).map fun k => polyval2 c ((n : ℚ) + (k : ℚ))
            else [] }

/-! ### OutlierDetector (`detect_outliers`, data_analysis.py)

The reports invoke `detect_outliers` with `method='iqr'` only, and every
claim concerns the IQR branch; the `zscore` branch (real-valued z-scores)
is not embedded. -/

/-- Per-column outlier record (data_analysis.py lines 208-218).  The
`indices`, `timestamps`, `method` and `threshold` fields are omitted:
no claim refers to them. -/
structure OutlierInfo where
  count : Nat
  percentage : ℚ
  values : List ℚ
  lower_bound : ℚ
  upper_bound : ℚ
  deriving Repr, DecidableEq

/-- The IQR branch of `detect_outliers` for one column
(data_analysis.py lines 168-184 + 196-218): columns with fewer than 10
valid samples are skipped (`continue`), and an entry is produced only when
at least one value falls strictly outside
`[Q1 − k·IQR, Q3 + k·IQR]`. -/
def detectOutliersCol (k : ℚ) (col : List (Option ℚ)) : Option OutlierInfo :=
  let data := validVals col
  if data.length < 10 then none
  else
    let q1 := quantile 1 4 data
    let q3 := quantile 3 4 data
    let iqr := q3 - q1
    let lower := q1 - k * iqr
    let upper := q3 + k * iqr
    let vals := data.filter fun v => v < lower || upper < v
    if vals.isEmpty then none
    else
      some
        { count := vals.length
          percentage := ((vals.length : ℚ) / (data.length : ℚ)) * 100
          values := vals
          lower_bound := lower
          upper_bound := upper }

/-- The values a column's entry flags (`[]` when the column produced no
entry). -/
def flaggedValues (k : ℚ) (col : List (Option ℚ)) : List ℚ :=
  ((detectOutliersCol k col).map OutlierInfo.values).getD []

/-- Table-level `detect_outliers` with `method='iqr'`
(data_analysis.py lines 150-229): one entry per numeric column that
produced outliers; empty for an empty table. -/
def detect_outliers (f : Frame) (k : ℚ) : List (String × OutlierInfo) :=
  if f.isEmpty then []
  else f.num.filterMap fun p => (detectOutliersCol k p.2).map fun o => (p.1, o)

/-- The `summary` entry of `detect_outliers` (lines 221-227), present only
when some column produced outliers. -/
structure OutlierSummary where
  total_outliers : Nat
  columns_with_outliers : List String
  deriving Repr, DecidableEq

/-- Aggregation of the per-column entries into the `summary` entry. -/
def outlierSummary (entries : List (String × OutlierInfo)) :
    Option OutlierSummary :=
  if entries.isEmpty then none
  else some ⟨(entries.map fun p => p.2.count).sum, entries.map fun p => p.1⟩

/-! ### OrbitAnalyzer (`analyze_orbit_parameters`, data_analysis.py) -/

/-- Mean of a list of reals (`Series.mean`). -/
noncomputable def rMean (xs : List ℝ) : ℝ := xs.sum / (xs.length : ℝ)

/-- Sample standard deviation (`ddof=1`) of a list of reals. -/
noncomputable def rStd (xs : List ℝ) : ℝ :=
  Real.sqrt (((xs.map fun x => (x - rMean xs) ^ 2).sum) / ((xs.length - 1 : ℕ) : ℝ))

/-- Minimum of a list of reals (0 on empty; only applied non-empty). -/
noncomputable def rMinD (xs : List ℝ) : ℝ :=
  match xs with
  | [] => 0
  | h :: t => t.foldl min h

/-- Maximum of a list of reals (0 on empty). -/
noncomputable def rMaxD (xs : List ℝ) : ℝ :=
  match xs with
  | [] => 0
  | h :: t => t.foldl max h

/-- The per-element stability rule of `analyze_orbit_parameters`
(data_analysis.py line 258): `'稳定' iff std/mean < 0.01`.  When the mean
is zero the source's float division yields `±inf` or `NaN`, and either
compares false against `0.01`, so the label is `'不稳定'`; the model makes
that branch explicit. -/
noncomputable def orbitStabLabel (std : ℝ) (mean : ℚ) : String :=
  if mean = 0 then "不稳定"
  else if std / (mean : ℝ) < 1/100 then "稳定" else "不稳定"

/-- One orbital element's entry (data_analysis.py lines 252-259). -/
structure ParamStats where
  mean : ℚ
  std : ℝ
  min : ℚ
  max : ℚ
  range : ℚ
  stability : String

/-- The `orbit_stability` entry (data_analysis.py lines 275-280). -/
structure OrbitStabilityInfo where
  mean_rate : ℚ
  max_rate : ℚ
  min_rate : ℚ
  assessment : String
  deriving Repr, DecidableEq

/-- The `orbit_period` entry (data_analysis.py lines 297-304); the Kepler
periods are real-valued (`2π√(a³/(G·M))`). -/
structure PeriodStats where
  mean : ℝ
  std : ℝ
  min : ℝ
  max : ℝ
  mean_minutes : ℝ
  mean_hours : ℝ

/-- `G · M_earth` in km³/s²: `6.67430e-20 × 5.972e24`. -/
def GM : ℚ := (66743 / 10 ^ 24) * (5972 * 10 ^ 21)

/-- Kepler's third law as in the source: `2π·√(a³/(G·M))` seconds. -/
noncomputable def keplerPeriod (a : ℚ) : ℝ :=
  2 * Real.pi * Real.sqrt (((a ^ 3 / GM : ℚ) : ℝ))

/-- Consecutive differences of the valid values (`Series.diff().dropna()`
of an already-`dropna`-ed series). -/
def consecDiffs (xs : List ℚ) : List ℚ :=
  (xs.zip xs.tail).map fun p => p.2 - p.1

/-- `df['timestamp'].diff().dt.total_seconds().dropna()`: consecutive
timestamp differences in seconds; a pair involving a missing timestamp
(`NaT`) yields `NaN` and is dropped. -/
def timeDiffSeconds (ts : List (Option Int)) : List ℚ :=
  ((ts.zip ts.tail).filterMap fun p =>
    match p.1, p.2 with
    | some a, some b => some ((b - a : ℤ) : ℚ)
    | _, _ => none).map fun d => d / 1000

/-- The result of `analyze_orbit_parameters` (data_analysis.py
lines 232-336).  The `parameter_correlations` section (Pearson
correlations over the six elements) is omitted: no claim refers to it. -/
structure OrbitAnalysis where
  params : List (String × ParamStats)
  orbit_stability : Option OrbitStabilityInfo
  orbit_period : Option PeriodStats

/-- `analyze_orbit_parameters` (data_analysis.py lines 232-336).
The `orbit_period` section is guarded by
`'a' in df.columns and 'altitude' not in df.columns` (line 283): on a
table that already carries an `altitude` column it is never produced.
The altitude-rate rates divide by `Δt`; a zero `Δt` would be a float
`±inf`/`NaN` in the source while the rational model yields 0 — normalized
tables have strictly increasing timestamps, and no claim evaluates that
case. -/
noncomputable def analyze_orbit_parameters (f : Frame) : OrbitAnalysis :=
  if f.isEmpty then ⟨[], none, none⟩
  else
    { params :=
        orbitParams.filterMap fun p =>
          if f.cols.contains p then
            let data := validVals (f.col p)
            if data.length > 0 then
              some (p,
                { mean := sampleMean data
                  std := sampleStd data
                  min := listMinD data
                  max := listMaxD data
                  range := listMaxD data - listMinD data
                  stability := orbitStabLabel (sampleStd data) (sampleMean data) })
            else none
          else none
      orbit_stability :=
        if f.cols.contains "a" then
          let aData := validVals (f.col "a")
          if 1 < aData.length ∧ f.cols.contains "timestamp" then
            let tdiff := timeDiffSeconds f.timestamp
            let adiff := consecDiffs aData
            if tdiff.length > 0 ∧ adiff.length > 0 then
              let m := min tdiff.length adiff.length
              let rate := ((adiff.take m).zip (tdiff.take m)).map fun p => p.1 / p.2
              some
                { mean_rate := sampleMean rate
                  max_rate := listMaxD rate
                  min_rate := listMinD rate
                  assessment :=
                    if |sampleMean rate| < 1/10 then "稳定" else "不稳定" }
            else none
          else none
        else none
      orbit_period :=
        if f.cols.contains "a" && !(f.cols.contains "altitude") then
          let periodData := (validVals (f.col "a")).map keplerPeriod
          if periodData.length > 0 then
            some
              { mean := rMean periodData
                std := rStd periodData
                min := rMinD periodData
                max := rMaxD periodData
                mean_minutes := rMean periodData / 60
                mean_hours := rMean periodData / 3600 }
          else none
        else none }

/-- The key list of the analysis dictionary
(`list(orbit_analysis.keys())`), in insertion order; the omitted
`parameter_correlations` key is noted above. -/
def OrbitAnalysis.keys (o : OrbitAnalysis) : List String :=
  (o.params.map fun p => p.1) ++
    (if o.orbit_stability.isSome then ["orbit_stability"] else []) ++
      (if o.orbit_period.isSome then ["orbit_period"] else [])

/-- `if orbit_analysis:` — the dictionary is truthy iff some section was
produced. -/
def OrbitAnalysis.isEmptyDict (o : OrbitAnalysis) : Bool :=
  o.params.isEmpty && o.orbit_stability.isNone && o.orbit_period.isNone

/-! ### ReportAggregator: whole-dataset summary (`create_summary_report`) -/

/-- The stability rule of the statistics summary
(data_report.py lines 298-307): `std / (|mean| if mean ≠ 0 else 1)`
compared against `0.1`.  Note this is not the §4.6 rule. -/
noncomputable def summaryStabLabel (std : ℝ) (mean : ℚ) : String :=
  if std / (if mean = 0 then 1 else |(mean : ℝ)|) < 1/10 then "稳定"
  else "不稳定"

/-- One `statistics_summary` entry (data_report.py lines 302-308). -/
structure StatSummaryEntry where
  mean : ℚ
  min : ℚ
  max : ℚ
  std : ℝ
  stability : String

/-- The `trends_analysis.temperature` entry
(data_report.py lines 315-320). -/
structure TrendsEntry where
  direction : String
  slope : ℚ
  r_squared : Option ℚ
  current_value : ℚ
  deriving Repr, DecidableEq

/-- The `data_overview.time_range` entry (data_report.py lines 210-214);
`start`/`stop` are the extreme valid timestamps (the source additionally
formats them as strings). -/
structure TimeRange where
  start : Int
  stop : Int
  duration_hours : ℚ
  deriving Repr, DecidableEq

/-- The `anomalies_summary` section (data_report.py lines 327-330). -/
structure AnomaliesSummary where
  total_outliers : Nat
  columns_with_outliers : List String
  deriving Repr, DecidableEq

/-- The `orbit_analysis_summary` section (data_report.py lines 337-340). -/
structure OrbitSummarySection where
  parameters_analyzed : List String
  stability : String
  deriving Repr, DecidableEq

/-- The `cycle_reports_summary` section (data_report.py lines 365-369). -/
structure CyclesSummary where
  total_cycles : Nat
  average_records_per_cycle : ℚ
  cycles_with_alarms : Nat
  deriving Repr, DecidableEq

/-- The summary-report record (data_report.py lines 275-291), with the
nested dictionaries flattened into the typed sections above.
`report_metadata.status` and the boolean stage flags are compile-time
constants on the embedded (exception-free) path and are omitted;
`generated_time` and `report_generated` are the two `datetime.now()`
reads (lines 195 and 277), both modelled from the clock parameter. -/
structure SummaryReport where
  generated_time : String
  data_records : Nat
  cycle_reports_generated : Nat
  report_generated : String
  total_records : Nat
  data_columns : List String
  numeric_columns : List String
  time_range : Option TimeRange
  statistics_summary : List (String × StatSummaryEntry)
  trends_analysis : Option TrendsEntry
  anomalies_summary : Option AnomaliesSummary
  orbit_analysis_summary : Option OrbitSummarySection
  total_alarms : Nat
  alarms_by_type : List (String × Nat)
  cycle_reports_summary : Option CyclesSummary
  recommendations : List String

/-- Minimum of a list of integers (0 on empty; only applied non-empty). -/
def listMinI (xs : List Int) : Int :=
  match xs with
  | [] => 0
  | h :: t => t.foldl min h

/-- Maximum of a list of integers (0 on empty). -/
def listMaxI (xs : List Int) : Int :=
  match xs with
  | [] => 0
  | h :: t => t.foldl max h

/-- `round(x, 2)` — rounding to two decimals.  (Python rounds ties to
even, `Int.round` ties away from zero on positives; the difference only
shows at exact third-decimal 5-ties, which no claim evaluates.) -/
def round2 (x : ℚ) : ℚ := ((round (x * 100) : ℤ) : ℚ) / 100

/-- The alarm section of `create_summary_report`
(data_report.py lines 261-272): the same module-level import of
`check_all_thresholds` raises `ImportError`, so `alarms = []` and
`alarm_count = 0`. -/
def summaryAlarms (cfg : Thresholds) (f : Frame) : Nat × List Alarm :=
  match importedCheckAllThresholds with
  | some g => let a := g cfg f; (a.length, a)
  | none => (0, [])

/-- Counting alarms per `type` in first-occurrence order
(data_report.py lines 345-352). -/
def bumpType (l : List (String × Nat)) (t : String) : List (String × Nat) :=
  match l with
  | [] => [(t, 1)]
  | (s, n) :: rest => if s = t then (s, n + 1) :: rest else (s, n) :: bumpType rest t

/-- `alarms_by_type` built by folding over the alarm list. -/
def alarmsByType (as : List Alarm) : List (String × Nat) :=
  as.foldl (fun acc a => bumpType acc a.type) []

/-- The five recommendation rules (data_report.py lines 373-404), applied
in source order.  `tempStd`/`voltMin` are `none` when the corresponding
key is absent from `statistics_summary` (the rule is then skipped);
`orbitStab` is `none` when `orbit_analysis_summary` is the empty section.
No rule firing leaves the list empty — the source has no
"all parameters normal" fallback (that text exists only in the GUI
module). -/
noncomputable def recommendationsOf (alarm_count nrows : Nat)
    (tempStd : Option ℝ) (voltMin : Option ℚ) (orbitStab : Option String)
    (totalOutliers : Nat) : List String :=
  (if (alarm_count : ℚ) > (nrows : ℚ) * (1/10) then
      ["🚨 报警数量较多，建议检查传感器或调整阈值"] else []) ++
  (match tempStd with
    | some s => if s > 5 then ["🌡️ 温度波动较大，建议检查温控系统"] else []
    | none => []) ++
  (match voltMin with
    | some m => if m < 72/10 then ["🔋 电池电压过低，建议检查电源系统"] else []
    | none => []) ++
  (if orbitStab = some "不稳定" then
      ["🛰️ 轨道参数不稳定，建议进行轨道修正"] else []) ++
  (if totalOutliers > 10 then
      ["⚠️ 检测到较多异常值，建议检查数据质量"] else [])

/-- The non-empty-table path of `create_summary_report`
(data_report.py lines 175-406), composing the sections exactly as the
source does; the clock reads are the `now` parameter. -/
noncomputable def mkSummary (now : String) (cfg : Thresholds) (f : Frame) :
    SummaryReport :=
  let validTs := f.timestamp.filterMap id
  let time_range : Option TimeRange :=
    if f.cols.contains "timestamp" && !validTs.isEmpty then
      some
        { start := listMinI validTs
          stop := listMaxI validTs
          duration_hours :=
            round2 ((((listMaxI validTs - listMinI validTs : ℤ) : ℚ) / 1000) / 3600) }
    else none
  let cycle_size := min 20 (if f.nrows / 5 = 0 then 10 else f.nrows / 5)
  let cycles := generate_cycle_report cfg f cycle_size true
  let stats := calculate_statistics f
  let temp_trend := fit_temperature_trend f
  let outliers := detect_outliers f (3/2)
  let osum := outlierSummary outliers
  let orbit := analyze_orbit_parameters f
  let alarmSec := summaryAlarms cfg f
  let statssum : List (String × StatSummaryEntry) :=
    ["temperature", "battery_voltage", "a", "e", "i"].filterMap fun p =>
      (stats.lookup p).map fun cs =>
        (p, { mean := cs.mean, min := cs.min, max := cs.max, std := cs.std
              stability := summaryStabLabel cs.std cs.mean })
  let orbitSection : Option OrbitSummarySection :=
    if orbit.isEmptyDict then none
    else
      some
        { parameters_analyzed := orbit.keys
          stability :=
            ((orbit.orbit_stability.map OrbitStabilityInfo.assessment).getD "未知") }
  { generated_time := now
    data_records := f.nrows
    cycle_reports_generated := cycles.length
    report_generated := now
    total_records := f.nrows
    data_columns := f.cols
    numeric_columns := f.num.map fun p => p.1
    time_range := time_range
    statistics_summary := statssum
    trends_analysis :=
      temp_trend.map fun t =>
        { direction := t.trend, slope := t.slope, r_squared := t.r_squared
          current_value := t.current_temperature }
    anomalies_summary := osum.map fun s =>
      { total_outliers := s.total_outliers
        columns_with_outliers := s.columns_with_outliers }
    orbit_analysis_summary := orbitSection
    total_alarms := alarmSec.1
    alarms_by_type := alarmsByType alarmSec.2
    cycle_reports_summary :=
      if cycles.isEmpty then none
      else
        some
          { total_cycles := cycles.length
            average_records_per_cycle :=
              ((cycles.map fun r => (r.total_records : ℚ)).sum) / (cycles.length : ℚ)
            cycles_with_alarms := (cycles.filter fun r => r.alarm_count > 0).length }
    recommendations :=
      recommendationsOf alarmSec.1 f.nrows
        ((statssum.lookup "temperature").map StatSummaryEntry.std)
        ((statssum.lookup "battery_voltage").map StatSummaryEntry.min)
        (orbitSection.map OrbitSummarySection.stability)
        ((osum.map OutlierSummary.total_outliers).getD 0) }

/-- `create_summary_report` (data_report.py lines 175-406): `none` models
the `{"error": …}` dictionary returned for an empty table. -/
noncomputable def create_summary_report (now : String) (cfg : Thresholds)
    (f : Frame) : Option SummaryReport :=
  if f.isEmpty then none else some (mkSummary now cfg f)

/-! ## Concrete tables used by witnesses and counterexamples -/

/-- Temperature-only threshold configuration (all bands defaulted). -/
def cfgTemp : Thresholds := ⟨some ⟨none, none, none, none⟩, none, none⟩

/-- A one-row table whose temperature 50 °C violates the default
`alarm_max = 40`. -/
def frameHot : Frame :=
  ⟨1, ["timestamp", "temperature"], [some 0], [("temperature", [some 50])]⟩

/-- A column realizing the spec's IQR example: `Q1 = 10`, `Q3 = 20`,
bounds `−5` / `35`, with the value `−5` exactly at the lower bound and
`36` strictly above the upper bound. -/
def iqrCol : List (Option ℚ) :=
  [some (-5), some 10, some 10, some 10, some 10, some 20, some 20, some 20,
    some 20, some 36]

/-- A column with fewer than 10 valid samples. -/
def smallCol : List (Option ℚ) := [some 1, some 2, none, some 3, some 4]

/-- Ten valid temperature samples `0, 1, …, 9`. -/
def frameT10 : Frame :=
  ⟨10, ["temperature"], [],
    [("temperature",
      [some 0, some 1, some 2, some 3, some 4, some 5, some 6, some 7,
        some 8, some 9])]⟩

/-- Eleven valid temperature samples `0, 1, …, 10`. -/
def frameT11 : Frame :=
  ⟨11, ["temperature"], [],
    [("temperature",
      [some 0, some 1, some 2, some 3, some 4, some 5, some 6, some 7,
        some 8, some 9, some 10])]⟩

/-- An enriched table (as produced by
`DataLoader._calculate_derived_features`): it carries `a` and the derived
`altitude` column. -/
def frameEnr : Frame :=
  ⟨1, ["timestamp", "a", "altitude"], [some 0],
    [("a", [some 7000]), ("altitude", [some 629])]⟩

/-- The same data without the derived `altitude` column. -/
def framePlainA : Frame :=
  ⟨1, ["timestamp", "a"], [some 0], [("a", [some 7000])]⟩

/-- A benign three-row table: temperatures 98/100/102 (mean 100, sample
std 2), constant voltage 7.5 V, constant `a = 7000` km, one-minute
spacing.  None of the five recommendation rules triggers on it. -/
def frameBase : Frame :=
  ⟨3, ["timestamp", "temperature", "battery_voltage", "a"],
    [some 0, some 60000, some 120000],
    [("temperature", [some 98, some 100, some 102]),
      ("battery_voltage", [some (15/2), some (15/2), some (15/2)]),
      ("a", [some 7000, some 7000, some 7000])]⟩

/-! ## Claims -/

/-- Claim C1: the spec (§4.1/§8) promises that after duplicate resolution
(offset `row_index` ms on every member of a duplicate group) and the
ascending sort, timestamps are strictly ascending and pairwise distinct
for **all** inputs.  The code violates this: on timestamps
`[1000 ms, 1000 ms, 1001 ms]` the duplicate group `{row 0, row 1}` gets
offsets `+0 ms`/`+1 ms`, so row 1 collides with the untouched row 2 and the
sorted result `[1000, 1001, 1001]` still contains a duplicate. -/
theorem c1_duplicate_offsets_collide :
    validateTimestamps [1000, 1000, 1001] = [1000, 1001, 1001] ∧
    ¬ (validateTimestamps [1000, 1000, 1001]).Pairwise (· < ·) := by
  constructor
  · decide
  · decide

/-- Claim C2: for a present (non-empty) category configuration, each
sample with a non-missing value yields at most one alarm per parameter,
the bands are tried in the fixed order `alarm_max`, `alarm_min`,
`warning_max`, `warning_min` (so a value above both `alarm_max` and
`warning_max` yields exactly one `alarm`-severity alarm), and omitted
bands fall back to the documented defaults (40/15/38/20 °C and
8.4/7.0/8.2/7.3 V). -/
theorem c2_band_priority (c : BandThresholds) (ts : Option Int) (t v : ℚ) :
    (checkTempRow c ts (some t)).length ≤ 1 ∧
    (checkVoltRow c ts (some v)).length ≤ 1 ∧
    (c.alarm_max.getD 40 < t → c.warning_max.getD 38 < t →
      checkTempRow c ts (some t) = [⟨ts, "temperature", "alarm", some t⟩]) ∧
    (c.alarm_max.getD (42/5) < v → c.warning_max.getD (41/5) < v →
      checkVoltRow c ts (some v) = [⟨ts, "battery_voltage", "alarm", some v⟩]) ∧
    checkTempRow ⟨none, none, none, none⟩ ts (some t) =
      checkTempRow ⟨some 40, some 15, some 38, some 20⟩ ts (some t) ∧
    checkVoltRow ⟨none, none, none, none⟩ ts (some v) =
      checkVoltRow ⟨some (42/5), some 7, some (41/5), some (73/10)⟩ ts (some v) := by
  refine ⟨?_, ?_, ?_, ?_, rfl, rfl⟩
  · unfold checkTempRow
    split_ifs <;> simp
  · unfold checkVoltRow
    split_ifs <;> simp
  · intro h1 _h2
    simp [checkTempRow, nanGt, h1]
  · intro h1 _h2
    simp [checkVoltRow, nanGt, h1]

/-- Witness for C2 at concrete inputs: 50 °C exceeds both the default
`alarm_max = 40` and `warning_max = 38` and produces exactly the one
`alarm`-severity alarm. -/
theorem c2_band_priority_witness :
    ((⟨none, none, none, none⟩ : BandThresholds).alarm_max.getD 40 < (50:ℚ) ∧
      (⟨none, none, none, none⟩ : BandThresholds).warning_max.getD 38 < (50:ℚ)) ∧
    checkTempRow ⟨none, none, none, none⟩ (some 0) (some 50) =
      [⟨some 0, "temperature", "alarm", some 50⟩] := by
  refine ⟨⟨by norm_num, by norm_num⟩, ?_⟩
  exact (c2_band_priority ⟨none, none, none, none⟩ (some 0) 50 0).2.2.1
    (by norm_num) (by norm_num)

/-- Claim C10: a missing (`NaN`) temperature or voltage value makes every
band comparison false, so the row silently contributes no alarm for that
parameter at any tier. -/
theorem c10_missing_value_no_alarm (c : BandThresholds) (ts : Option Int) :
    checkTempRow c ts none = [] ∧ checkVoltRow c ts none = [] := by
  simp [checkTempRow, checkVoltRow, nanGt, nanLt]

/-- Claim C3 (code bug): `generate_cycle_report` tries
`from core.data_checker import check_all_thresholds`, which always raises
`ImportError` (the name is a method of `DataChecker`, not a module-level
function), so every chunk records `alarm_count = 0` and `alarms = []` —
even for a chunk whose 50 °C sample makes the §4.7 evaluation produce one
alarm. -/
theorem c3_cycle_alarms_lost_to_importerror :
    (generate_cycle_report cfgTemp frameHot 10 true).map
        (fun r => (r.alarm_count, r.alarms)) = [(0, [])] ∧
    (check_all_thresholds cfgTemp frameHot).length = 1 := by
  constructor
  · norm_num [generate_cycle_report, Frame.isEmpty, cycleAlarmSection,
      importedCheckAllThresholds, Frame.slice, List.range_succ, cfgTemp,
      frameHot]
  · norm_num [check_all_thresholds, check_temperature, check_battery_voltage,
      check_orbit_parameters, checkTempRow, nanGt, nanLt, Frame.ts, Frame.cell,
      Frame.col, sortBy, insSorted, List.lookup, List.range_succ, cfgTemp,
      frameHot]

/-- Claim C9: with at least 10 valid samples, the IQR method flags a value
iff it lies strictly below `Q1 − k·IQR` or strictly above `Q3 + k·IQR`
(values exactly at a bound are not flagged); a column with fewer than 10
valid samples is skipped entirely. -/
theorem c9_iqr_strict_bounds (k : ℚ) (col : List (Option ℚ)) :
    (10 ≤ (validVals col).length →
      ∀ v : ℚ,
        v ∈ flaggedValues k col ↔
          v ∈ validVals col ∧
            (v < quantile 1 4 (validVals col) -
                k * (quantile 3 4 (validVals col) - quantile 1 4 (validVals col)) ∨
              quantile 3 4 (validVals col) +
                k * (quantile 3 4 (validVals col) - quantile 1 4 (validVals col)) < v)) ∧
    ((validVals col).length < 10 → detectOutliersCol k col = none) := by
  constructor
  · intro hlen v
    have h10 : ¬ ((validVals col).length < 10) := by omega
    have hflag : flaggedValues k col =
        (validVals col).filter fun x =>
          decide (x < quantile 1 4 (validVals col) -
            k * (quantile 3 4 (validVals col) - quantile 1 4 (validVals col))) ||
          decide (quantile 3 4 (validVals col) +
            k * (quantile 3 4 (validVals col) - quantile 1 4 (validVals col)) < x) := by
      simp only [flaggedValues, detectOutliersCol]
      rw [if_neg h10]
      by_cases he : ((validVals col).filter fun x =>
          decide (x < quantile 1 4 (validVals col) -
            k * (quantile 3 4 (validVals col) - quantile 1 4 (validVals col))) ||
          decide (quantile 3 4 (validVals col) +
            k * (quantile 3 4 (validVals col) - quantile 1 4 (validVals col)) < x)).isEmpty
      · rw [if_pos he, List.isEmpty_iff.mp he]
        rfl
      · rw [if_neg he]
        rfl
    rw [hflag]
    simp [List.mem_filter]
  · intro hlen
    simp only [detectOutliersCol]
    rw [if_pos hlen]

/-- Witness for C9: on the spec's example column (`Q1 = 10`, `Q3 = 20`,
`k = 1.5`, bounds `−5`/`35`), the value 36 is flagged while the value
`−5`, exactly at the lower bound, is not; and a 4-valid-sample column is
skipped. -/
theorem c9_iqr_strict_bounds_witness :
    (10 ≤ (validVals iqrCol).length ∧
      quantile 1 4 (validVals iqrCol) = 10 ∧
      quantile 3 4 (validVals iqrCol) = 20 ∧
      (36 : ℚ) ∈ flaggedValues (3/2) iqrCol ∧
      ¬ ((-5 : ℚ) ∈ flaggedValues (3/2) iqrCol)) ∧
    ((validVals smallCol).length < 10 ∧ detectOutliersCol (3/2) smallCol = none) := by
  have hlen : 10 ≤ (validVals iqrCol).length := by simp [validVals, iqrCol]
  have hq1 : quantile 1 4 (validVals iqrCol) = 10 := by
    simp [quantile, sortQ, sortBy, insSorted, validVals, iqrCol]
    norm_num
  have hq3 : quantile 3 4 (validVals iqrCol) = 20 := by
    simp [quantile, sortQ, sortBy, insSorted, validVals, iqrCol]
    norm_num
  have hsmall : (validVals smallCol).length < 10 := by simp [validVals, smallCol]
  refine ⟨⟨hlen, hq1, hq3, ?_, ?_⟩, hsmall, ?_⟩
  · refine ((c9_iqr_strict_bounds (3/2) iqrCol).1 hlen 36).mpr ⟨?_, Or.inr ?_⟩
    · simp [validVals, iqrCol]
    · rw [hq1, hq3]; norm_num
  · intro hmem
    have h := ((c9_iqr_strict_bounds (3/2) iqrCol).1 hlen (-5)).mp hmem
    rw [hq1, hq3] at h
    rcases h with ⟨-, h | h⟩ <;> norm_num at h
  · exact (c9_iqr_strict_bounds (3/2) smallCol).2 hsmall

/-- Counterexample for C8: the source gates the forecast on
`len(temp_data) > 10`, not `≥ 10` as the spec states — a series with
exactly 10 valid samples gets an empty forecast. -/
theorem c8_forecast_counterexample :
    10 ≤ (validVals (frameT10.col "temperature")).length ∧
    (fit_temperature_trend frameT10).map TrendResult.future_predictions =
      some [] := by
  constructor
  · simp [validVals, Frame.col, frameT10]
  · simp [fit_temperature_trend, frameT10, Frame.isEmpty, Frame.col, validVals]

/-- Claim C8 as amended: with **more than** 10 valid samples the forecast
is the fitted quadratic evaluated at the 5 indices immediately beyond the
last observed index, and with at most 10 valid samples it is empty. -/
theorem c8_forecast_amended (f : Frame) (r : TrendResult)
    (hr : fit_temperature_trend f = some r) :
    (10 < (validVals (f.col "temperature")).length →
      r.future_predictions = (List.range 5).map fun j =>
        polyval2 (polyfit2 (validVals (f.col "temperature")))
          (((validVals (f.col "temperature")).length : ℚ) + (j : ℚ))) ∧
    ((validVals (f.col "temperature")).length ≤ 10 →
      r.future_predictions = []) := by
  simp only [fit_temperature_trend] at hr
  split at hr
  · exact absurd hr (by simp)
  · split at hr
    · exact absurd hr (by simp)
    · have hr2 := Option.some.inj hr
      subst hr2
      constructor
      · intro h
        simp [h]
      · intro h
        have h2 : ¬ (10 < (validVals (f.col "temperature")).length) := by omega
        simp [h2]

/-- Witness for C8 (amended): 11 valid samples `0,…,10` produce the
5-point forecast of the fitted quadratic. -/
theorem c8_forecast_amended_witness :
    10 < (validVals (frameT11.col "temperature")).length ∧
    (fit_temperature_trend frameT11).map TrendResult.future_predictions =
      some ((List.range 5).map fun j =>
        polyval2 (polyfit2 (validVals (frameT11.col "temperature")))
          (((validVals (frameT11.col "temperature")).length : ℚ) + (j : ℚ))) := by
  have h11 : 10 < (validVals (frameT11.col "temperature")).length := by
    simp [validVals, Frame.col, frameT11]
  refine ⟨h11, ?_⟩
  cases hr : fit_temperature_trend frameT11 with
  | none =>
      exact absurd hr (by
        simp [fit_temperature_trend, frameT11, Frame.isEmpty, Frame.col,
          validVals])
  | some r =>
      have := (c8_forecast_amended frameT11 r hr).1 h11
      simp [this]

/-- Claim C6 (code bug): the orbital-period distribution of
`analyze_orbit_parameters` is guarded by
`'a' in df.columns and 'altitude' not in df.columns`, so on the enriched
table produced by the FeatureDeriver (which always carries `altitude`
alongside `a`) the section is never produced, although the same data
without the `altitude` column does produce it. -/
theorem c6_orbit_period_gate :
    "a" ∈ frameEnr.cols ∧ "altitude" ∈ frameEnr.cols ∧
    (validVals (frameEnr.col "a")).length = 1 ∧
    (analyze_orbit_parameters frameEnr).orbit_period = none ∧
    (analyze_orbit_parameters framePlainA).orbit_period.isSome = true := by
  refine ⟨by simp [frameEnr], by simp [frameEnr], by simp [validVals, Frame.col, frameEnr], ?_, ?_⟩
  · simp [analyze_orbit_parameters, frameEnr, Frame.isEmpty, Frame.col]
  · simp [analyze_orbit_parameters, framePlainA, Frame.isEmpty, Frame.col,
      validVals]

/-! ## Helper evaluations shared by the remaining claims -/

/-- The `report_generated` field of a produced summary is the clock
read. -/
lemma mkSummary_report_generated (now : String) (cfg : Thresholds)
    (f : Frame) : (mkSummary now cfg f).report_generated = now := rfl

/-- Mean of the benign temperature column. -/
lemma sampleMean_base : sampleMean [(98:ℚ), 100, 102] = 100 := by
  norm_num [sampleMean]

/-- Sample variance of the benign temperature column. -/
lemma sampleVar_base : sampleVar [(98:ℚ), 100, 102] = 4 := by
  norm_num [sampleVar, sampleMean]

/-- Sample standard deviation of the benign temperature column. -/
lemma sampleStd_base : sampleStd [(98:ℚ), 100, 102] = 2 := by
  rw [sampleStd, sampleVar_base]
  rw [show ((4:ℚ):ℝ) = (2:ℝ)^2 by norm_num]
  exact Real.sqrt_sq (by norm_num)

/-- A std of 2 does not trigger the 5 °C recommendation rule. -/
lemma two_not_gt_five : ¬ ((2:ℝ) > 5) := by norm_num

/-- The summary stability rule at std 2, mean 100: `2/100 < 0.1`, hence
`'稳定'`. -/
lemma summaryStab_eval : summaryStabLabel 2 100 = "稳定" := by
  rw [summaryStabLabel]
  rw [if_pos]
  rw [if_neg (by norm_num)]
  rw [show |((100:ℚ):ℝ)| = 100 by rw [abs_of_pos] <;> norm_num]
  norm_num

/-- The §4.6 rule at the same inputs: `2/100 ≥ 0.01`, hence `'不稳定'`. -/
lemma orbitStab_eval :
    orbitStabLabel (sampleStd [98, 100, 102]) (sampleMean [98, 100, 102]) =
      "不稳定" := by
  rw [sampleStd_base, sampleMean_base, orbitStabLabel]
  rw [if_neg (by norm_num)]
  rw [if_neg]
  push_cast
  norm_num

/-- On the benign table no recommendation rule triggers and the list is
left empty. -/
lemma frameBase_recs (now : String) :
    (mkSummary now cfgTemp frameBase).recommendations = [] := by
  simp +decide [mkSummary, frameBase, cfgTemp, calculate_statistics,
    mkColStats, validVals, Frame.isEmpty, Frame.col, List.lookup,
    recommendationsOf, summaryAlarms, importedCheckAllThresholds,
    analyze_orbit_parameters, OrbitAnalysis.isEmptyDict, OrbitAnalysis.keys,
    timeDiffSeconds, consecDiffs, sampleMean_base, sampleStd_base,
    two_not_gt_five, detect_outliers, detectOutliersCol, outlierSummary,
    listMinD, sampleMean]
  norm_num

/-- On the benign table the summary labels temperature `'稳定'` although
its relative dispersion is `0.02 ≥ 0.01`. -/
lemma frameBase_temp_stab (now : String) :
    ((mkSummary now cfgTemp frameBase).statistics_summary.lookup
        "temperature").map StatSummaryEntry.stability = some "稳定" := by
  simp +decide [mkSummary, frameBase, cfgTemp, calculate_statistics,
    mkColStats, validVals, Frame.isEmpty, Frame.col, List.lookup,
    sampleMean_base, sampleStd_base, summaryStab_eval]

/-- Counterexample for C4: two runs of `create_summary_report` over the
same table and configuration differ whenever the wall-clock reads differ —
the `report_generated` / `generated_time` fields embed `datetime.now()`. -/
theorem c4_clock_counterexample :
    create_summary_report "2026-01-01 00:00:00" cfgTemp frameBase ≠
      create_summary_report "2026-01-01 00:00:01" cfgTemp frameBase := by
  intro h
  have h2 := congrArg (Option.map SummaryReport.report_generated) h
  simp +decide [create_summary_report, Frame.isEmpty, frameBase,
    mkSummary_report_generated] at h2

/-- Claim C4 as amended: apart from the two clock-derived metadata fields
(`generated_time`, `report_generated`), every field of the summary report
— overview, statistics, trends, anomalies, orbit, alarm, cycle sections
and the recommendations — is a deterministic function of the table and the
configuration: two runs agree on all of them. -/
theorem c4_content_deterministic (n1 n2 : String) (cfg : Thresholds)
    (f : Frame) :
    (mkSummary n1 cfg f).data_records = (mkSummary n2 cfg f).data_records ∧
    (mkSummary n1 cfg f).cycle_reports_generated =
      (mkSummary n2 cfg f).cycle_reports_generated ∧
    (mkSummary n1 cfg f).total_records = (mkSummary n2 cfg f).total_records ∧
    (mkSummary n1 cfg f).data_columns = (mkSummary n2 cfg f).data_columns ∧
    (mkSummary n1 cfg f).numeric_columns =
      (mkSummary n2 cfg f).numeric_columns ∧
    (mkSummary n1 cfg f).time_range = (mkSummary n2 cfg f).time_range ∧
    (mkSummary n1 cfg f).statistics_summary =
      (mkSummary n2 cfg f).statistics_summary ∧
    (mkSummary n1 cfg f).trends_analysis =
      (mkSummary n2 cfg f).trends_analysis ∧
    (mkSummary n1 cfg f).anomalies_summary =
      (mkSummary n2 cfg f).anomalies_summary ∧
    (mkSummary n1 cfg f).orbit_analysis_summary =
      (mkSummary n2 cfg f).orbit_analysis_summary ∧
    (mkSummary n1 cfg f).total_alarms = (mkSummary n2 cfg f).total_alarms ∧
    (mkSummary n1 cfg f).alarms_by_type =
      (mkSummary n2 cfg f).alarms_by_type ∧
    (mkSummary n1 cfg f).cycle_reports_summary =
      (mkSummary n2 cfg f).cycle_reports_summary ∧
    (mkSummary n1 cfg f).recommendations =
      (mkSummary n2 cfg f).recommendations :=
  ⟨rfl, rfl, rfl, rfl, rfl, rfl, rfl, rfl, rfl, rfl, rfl, rfl, rfl, rfl⟩

/-- Counterexample for C5: on the benign table, temperature has
`std/mean = 2/100 = 0.02`, which the §4.6 rule classifies `'不稳定'`
(`0.02 ≥ 0.01`), yet the summary report labels it `'稳定'` — its rule is
`std/|mean| < 0.1`, not the claimed `std/mean < 0.01`. -/
theorem c5_stability_rule_counterexample :
    validVals (frameBase.col "temperature") = [98, 100, 102] ∧
    ((create_summary_report "2026-01-01 00:00:00" cfgTemp frameBase).map
        fun r =>
          (r.statistics_summary.lookup "temperature").map
            StatSummaryEntry.stability) = some (some "稳定") ∧
    orbitStabLabel (sampleStd [98, 100, 102]) (sampleMean [98, 100, 102]) =
      "不稳定" := by
  refine ⟨rfl, ?_, orbitStab_eval⟩
  have hne : frameBase.isEmpty = false := rfl
  simp only [create_summary_report, hne, Bool.false_eq_true, if_false,
    Option.map_some']
  rw [frameBase_temp_stab]

/-- Claim C5 as amended: the summary's stability rule is
`std / (|mean| if mean ≠ 0 else 1) < 0.1`; it is implied by — but strictly
weaker than — the §4.6 rule `std/mean < 0.01`: every parameter the
OrbitAnalyzer rule classifies stable (with positive mean) is also labelled
stable by the summary, while the converse fails (see the
counterexample). -/
theorem c5_stability_rule_amended (std : ℝ) (mean : ℚ) (h0 : 0 < mean)
    (h : orbitStabLabel std mean = "稳定") :
    summaryStabLabel std mean = "稳定" := by
  have hne : mean ≠ 0 := ne_of_gt h0
  have hmr : (0:ℝ) < (mean : ℝ) := by exact_mod_cast h0
  rw [orbitStabLabel, if_neg hne] at h
  by_cases hc : std / (mean : ℝ) < 1/100
  · rw [summaryStabLabel, if_neg hne, abs_of_pos hmr, if_pos (by linarith)]
  · rw [if_neg hc] at h
    exact absurd h (by decide)

/-- Witness for C5 (amended) at std `√1 = 1`, mean `1000`:
`1/1000 < 0.01`, so both rules label it stable. -/
theorem c5_stability_rule_amended_witness :
    (0 : ℚ) < 1000 ∧ orbitStabLabel (Real.sqrt 1) 1000 = "稳定" ∧
    summaryStabLabel (Real.sqrt 1) 1000 = "稳定" := by
  have horb : orbitStabLabel (Real.sqrt 1) 1000 = "稳定" := by
    rw [orbitStabLabel, if_neg (by norm_num), Real.sqrt_one,
      if_pos (by push_cast; norm_num)]
  exact ⟨by norm_num, horb,
    c5_stability_rule_amended (Real.sqrt 1) 1000 (by norm_num) horb⟩

/-- Counterexample for C7: on the benign table no recommendation rule
triggers, and `create_summary_report` leaves the recommendations list
empty — there is no "all parameters normal" fallback in the aggregator
(that text exists only in the GUI module). -/
theorem c7_no_fallback_counterexample :
    (create_summary_report "2026-01-01 00:00:00" cfgTemp frameBase).map
        SummaryReport.recommendations = some [] ∧
    (create_summary_report "2026-01-01 00:00:00" cfgTemp frameBase).map
        SummaryReport.total_alarms = some 0 := by
  have hne : frameBase.isEmpty = false := rfl
  constructor
  · simp only [create_summary_report, hne, Bool.false_eq_true, if_false,
      Option.map_some']
    rw [frameBase_recs]
  · simp only [create_summary_report, hne, Bool.false_eq_true, if_false,
      Option.map_some']
    rfl

/-- Claim C7 as amended: when none of the five fixed rules triggers
(alarm count ≤ 10 % of rows, temperature std ≤ 5 °C, battery minimum
≥ 7.2 V, orbit not flagged unstable, outliers ≤ 10), the recommendations
list of `create_summary_report` is empty. -/
theorem c7_no_rule_empty_recommendations (alarm_count nrows : Nat)
    (tempStd : Option ℝ) (voltMin : Option ℚ) (orbitStab : Option String)
    (totalOutliers : Nat)
    (h1 : ¬ ((alarm_count : ℚ) > (nrows : ℚ) * (1/10)))
    (h2 : ∀ s, tempStd = some s → ¬ (s > 5))
    (h3 : ∀ m, voltMin = some m → ¬ (m < 72/10))
    (h4 : orbitStab ≠ some "不稳定")
    (h5 : ¬ (totalOutliers > 10)) :
    recommendationsOf alarm_count nrows tempStd voltMin orbitStab
      totalOutliers = [] := by
  unfold recommendationsOf
  rw [if_neg h1, if_neg h4, if_neg h5]
  cases htemp : tempStd with
  | none =>
      cases hvolt : voltMin with
      | none => rfl
      | some m => simp [h3 m hvolt]
  | some s =>
      cases hvolt : voltMin with
      | none => simp [h2 s htemp]
      | some m => simp [h2 s htemp, h3 m hvolt]

/-- Witness for C7 (amended) at the benign aggregates: 0 alarms over 3
rows, temperature std 2 ≤ 5, voltage minimum 7.5 ≥ 7.2, orbit stable,
0 outliers — the list is empty. -/
theorem c7_no_rule_empty_recommendations_witness :
    recommendationsOf 0 3 (some 2) (some (15/2)) (some "稳定") 0 = [] :=
  c7_no_rule_empty_recommendations 0 3 (some 2) (some (15/2)) (some "稳定") 0
    (by norm_num)
    (fun s hs => by injection hs with h; subst h; norm_num)
    (fun m hm => by injection hm with h; subst h; norm_num)
    (by simp)
    (by norm_num)

end FTTW
